import Mathlib

/-!
Shallow embedding of `ckb-light-client-monitor` (`src/main.rs`), a periodic
health-monitoring poller for a fleet of CKB light clients.

Modelling conventions:
* `u64` and `u16` values are `Nat` with explicit `% 2 ^ 64` / `% 2 ^ 16`
  wherever a Rust cast or release-profile wrap-around can occur.
* Timestamps (`DateTime<Local>`) are `Int` seconds; `signed_duration_since`
  followed by `num_seconds` is integer subtraction.
* Network responses are inductive oracles fed to the check functions: each
  constructor corresponds to one observable shape of the remote response.
* Rust `Result<(), Box<dyn Error>>` is `Except String`; the `unwrap` in
  `check_rpc` (a potential panic) is modelled by an `Option` layer where
  `none` means the panic was reached.
* Log invocations are recorded as a `List LogLine` in program order.
-/

/-- Constant `STARTING_PORT` from the source. -/
def STARTING_PORT : Nat := 19000

/-- Constant `TOTAL_CLIENTS` from the source. -/
def TOTAL_CLIENTS : Nat := 100

/-- Constant `CHECK_INTERVAL` from the source (seconds). -/
def CHECK_INTERVAL : Nat := 60

/-- Constant `MAX_BLOCK_DIFF` from the source (blocks). -/
def MAX_BLOCK_DIFF : Nat := 30

/-- The `Client` struct: one record per monitored light client. -/
structure Client where
  number : Nat
  port : Nat
  is_online : Bool
  block_number : Nat
  peers : Nat
  time_offline : Option Int
  deriving DecidableEq, Repr

/-- Constructor of `Client`: optimistic initial state, port derived from
the index as STARTING_PORT plus the index cast to u16 (cast explicit). -/
def Client.new (number : Nat) : Client :=
  { number := number
    port := (STARTING_PORT + number % 2 ^ 16) % 2 ^ 16
    is_online := true
    block_number := 0
    peers := 0
    time_offline := none }

/-- Log severities used by the program. -/
inductive Severity where
  | debug
  | info
  | warn
  | error
  deriving DecidableEq, Repr

/-- One emitted log line, one constructor per logging call site in the
source, carrying the data interpolated into the message. -/
inductive LogLine where
  /-- Debug line announcing that client n is about to be checked. -/
  | checking (n : Nat)
  /-- Info line: client n is now online, offline for the given seconds. -/
  | nowOnline (n : Nat) (durationSeconds : Int)
  /-- Error line: client n gave an error response. -/
  | errorResponse (n : Nat)
  /-- Error line: client n did not respond to the liveness request. -/
  | didNotRespond (n : Nat)
  /-- Debug line: client n has the given number of peers. -/
  | hasPeers (n : Nat) (count : Nat)
  /-- Error line from check_peers: result field is not an array or missing. -/
  | peersResultNotArray (n : Nat)
  /-- Error line from check_peers: failed to parse the JSON response. -/
  | peersJsonParseFailed (n : Nat)
  /-- Error line from check_peers: client n did not respond. -/
  | peersNoResponse (n : Nat)
  /-- Error line from check_block_number: client n did not respond. -/
  | tipNoResponse (n : Nat)
  /-- Error line from check_block_number: failed to parse the JSON response. -/
  | tipJsonParseFailed (n : Nat)
  /-- Error line from check_block_number: failed to parse the block number. -/
  | blockNumberParseFailed (n : Nat)
  /-- Error line from check_block_number: block number in an unexpected format. -/
  | blockNumberUnexpectedFormat (n : Nat)
  /-- Error line from check_block_number: unexpected JSON object. -/
  | unexpectedJsonObject (n : Nat)
  /-- Warn line: client n is lagging by diff blocks, at the given height. -/
  | lagging (n : Nat) (diff : Nat) (height : Nat)
  /-- Info summary: count of clients with 0 peers, with their numbers. -/
  | peers0Summary (count : Nat) (numbers : List Nat)
  /-- Info summary: count of clients with 1 peer, with their numbers. -/
  | peers1Summary (count : Nat) (numbers : List Nat)
  /-- Info summary: count of offline clients, with their numbers. -/
  | offlineSummary (count : Nat) (numbers : List Nat)
  deriving DecidableEq, Repr

/-- Severity of each log line, matching the logging level used at the call site. -/
def severity : LogLine → Severity
  | .checking _ => .debug
  | .nowOnline _ _ => .info
  | .errorResponse _ => .error
  | .didNotRespond _ => .error
  | .hasPeers _ _ => .debug
  | .peersResultNotArray _ => .error
  | .peersJsonParseFailed _ => .error
  | .peersNoResponse _ => .error
  | .tipNoResponse _ => .error
  | .tipJsonParseFailed _ => .error
  | .blockNumberParseFailed _ => .error
  | .blockNumberUnexpectedFormat _ => .error
  | .unexpectedJsonObject _ => .error
  | .lagging _ _ _ => .warn
  | .peers0Summary _ _ => .info
  | .peers1Summary _ _ => .info
  | .offlineSummary _ _ => .info

/-- Outcome of the `local_node_info` HTTP round-trip as observed by
`check_rpc`: `ok b` is a transport success whose `status().is_success()`
is `b`; `err` is a transport failure (the `Err(e)` arm). -/
inductive RpcResult where
  | ok (statusSuccess : Bool)
  | err
  deriving DecidableEq, Repr

/-- Method check_rpc of `Client`, with the current wall-clock time `now`
passed in for the clock read.  Returns `none` exactly when the source
would reach the unwrap of `time_offline` with no stored value (the
recovery branch); otherwise `some` of the updated client and the emitted
log lines.  The Rust return value is the Ok unit on every non-panicking
path. -/
def check_rpc (c : Client) (resp : RpcResult) (now : Int) :
    Option (Client × List LogLine) :=
  match resp with
  | .ok statusSuccess =>
    if statusSuccess then
      if !c.is_online then
        match c.time_offline with
        | none => none
        | some t =>
          some ({ c with is_online := true, time_offline := none },
                [LogLine.nowOnline c.number (now - t)])
      else
        some (c, [])
    else
      if c.is_online then
        some ({ c with is_online := false, time_offline := some now,
                       peers := 0, block_number := 0 },
              [LogLine.errorResponse c.number])
      else
        some (c, [])
  | .err =>
    if c.is_online then
      some ({ c with is_online := false, time_offline := some now,
                     peers := 0, block_number := 0 },
            [LogLine.didNotRespond c.number])
    else
      some (c, [])

/-- Outcome of the `get_peers` round-trip as observed by `check_peers`:
transport failure, JSON that fails to parse, a body whose `result` field is
not an array, or an array of `count` peers. -/
inductive PeersResponse where
  | noResponse
  | badJson
  | notArray
  | peersList (count : Nat)
  deriving DecidableEq, Repr

/-- Method check_peers of `Client`.  The third component records whether
the HTTP request was issued at all (the offline early-return skips it).
The u16 cast of the peer count is modulo `2 ^ 16`; note the 0-or-1 band
test is on the uncast usize length, as in the source.  Every path returns
`Except.ok`, mirroring the unconditional Ok unit of the source. -/
def check_peers (c : Client) (resp : PeersResponse) :
    Except String (Client × List LogLine × Bool) :=
  if !c.is_online then
    .ok (c, [], false)
  else
    match resp with
    | .noResponse => .ok (c, [LogLine.peersNoResponse c.number], true)
    | .badJson => .ok (c, [LogLine.peersJsonParseFailed c.number], true)
    | .notArray => .ok (c, [LogLine.peersResultNotArray c.number], true)
    | .peersList count =>
      let logs :=
        if c.peers ≠ count % 2 ^ 16 ∧ (count = 0 ∨ count = 1) then
          [LogLine.hasPeers c.number count]
        else
          []
      .ok ({ c with peers := count % 2 ^ 16 }, logs, true)

/-- Outcome of the `get_tip_header` round-trip as observed by
`check_block_number`: transport failure, unparsable JSON, a body with no
`result.number` field, a `number` that is not a string, or the `number`
string itself. -/
inductive TipResponse where
  | noResponse
  | badJson
  | noNumberField
  | numberNotString
  | numberStr (s : String)
  deriving DecidableEq, Repr

/-- Rust trim_start_matches with the two-character pattern 0x: strips that
prefix repeatedly for as long as the string starts with it. -/
def trimStartMatches0x : List Char → List Char
  | '0' :: 'x' :: rest => trimStartMatches0x rest
  | l => l

/-- Value of one hexadecimal digit, `none` for a non-digit
(`char::to_digit(16)` semantics). -/
def hexDigitVal (ch : Char) : Option Nat :=
  if '0' ≤ ch ∧ ch ≤ '9' then some (ch.toNat - '0'.toNat)
  else if 'a' ≤ ch ∧ ch ≤ 'f' then some (ch.toNat - 'a'.toNat + 10)
  else if 'A' ≤ ch ∧ ch ≤ 'F' then some (ch.toNat - 'A'.toNat + 10)
  else none

/-- Digit-folding loop of `u64::from_str_radix(_, 16)`: accumulates base-16
digits, failing on a non-digit or on `u64` overflow (the checked
multiply-and-add of the Rust implementation). -/
def parseHexDigits : List Char → Nat → Option Nat
  | [], acc => some acc
  | ch :: rest, acc =>
    match hexDigitVal ch with
    | none => none
    | some d =>
      if acc * 16 + d < 2 ^ 64 then parseHexDigits rest (acc * 16 + d)
      else none

/-- Semantics of u64 from_str_radix at radix 16: empty input is an error;
a leading plus sign is accepted (a leading minus is not, u64 being
unsigned); then a non-empty digit string is folded with overflow
checking. -/
def u64_from_str_radix_16 (s : List Char) : Option Nat :=
  match s with
  | [] => none
  | '+' :: rest => if rest = [] then none else parseHexDigits rest 0
  | _ => parseHexDigits s 0

/-- Method check_block_number of `Client`.  Same conventions as
`check_peers`: third component is whether the request was issued; every
path returns `Except.ok`. -/
def check_block_number (c : Client) (resp : TipResponse) :
    Except String (Client × List LogLine × Bool) :=
  if !c.is_online then
    .ok (c, [], false)
  else
    match resp with
    | .noResponse => .ok (c, [LogLine.tipNoResponse c.number], true)
    | .badJson => .ok (c, [LogLine.tipJsonParseFailed c.number], true)
    | .noNumberField => .ok (c, [LogLine.unexpectedJsonObject c.number], true)
    | .numberNotString =>
      .ok (c, [LogLine.blockNumberUnexpectedFormat c.number], true)
    | .numberStr s =>
      match u64_from_str_radix_16 (trimStartMatches0x s.data) with
      | some num => .ok ({ c with block_number := num }, [], true)
      | none => .ok (c, [LogLine.blockNumberParseFailed c.number], true)

/-- Per-client input for one sweep iteration: the three remote-call
outcomes together with the wall-clock time at which `Local::now()` is read
in `check_rpc`. -/
structure ClientInput where
  rpc : RpcResult
  now : Int
  peersResp : PeersResponse
  tipResp : TipResponse
  deriving DecidableEq, Repr

/-- Body of the first per-client loop of main specialised to one client:
the checking debug line, check_rpc, and, if the client is then online,
check_peers, check_block_number and the running-maximum update of
highest_block_number.  Here none propagates a panic, and Except.error
propagates a question-mark early return (never actually produced). -/
def clientStep (c : Client) (inp : ClientInput) (highest : Nat) :
    Option (Except String (Client × Nat × List LogLine)) :=
  match check_rpc c inp.rpc inp.now with
  | none => none
  | some (c1, logs1) =>
    if c1.is_online then
      match check_peers c1 inp.peersResp with
      | .error e => some (.error e)
      | .ok (c2, logs2, _) =>
        match check_block_number c2 inp.tipResp with
        | .error e => some (.error e)
        | .ok (c3, logs3, _) =>
          let highest' :=
            if c3.block_number > highest then c3.block_number else highest
          some (.ok (c3, highest',
                     LogLine.checking c.number :: (logs1 ++ logs2 ++ logs3)))
    else
      some (.ok (c1, highest, LogLine.checking c.number :: logs1))

/-- First pass of the sweep: `clientStep` over every client in index order,
threading `highest_block_number`. -/
def sweepPass1 : List (Client × ClientInput) → Nat →
    Option (Except String (List Client × Nat × List LogLine))
  | [], highest => some (.ok ([], highest, []))
  | (c, inp) :: rest, highest =>
    match clientStep c inp highest with
    | none => none
    | some (.error e) => some (.error e)
    | some (.ok (c', highest', logs)) =>
      match sweepPass1 rest highest' with
      | none => none
      | some (.error e) => some (.error e)
      | some (.ok (cs, hFinal, logsRest)) =>
        some (.ok (c' :: cs, hFinal, logs ++ logsRest))

/-- Second pass of the sweep: warn about every online client for which
highest_block_number exceeds block_number plus MAX_BLOCK_DIFF.  The u64
addition wraps modulo 2 ^ 64, the release-profile semantics of the
source expression; the logged difference cannot underflow inside the
branch. -/
def sweepPass2 : List Client → Nat → List LogLine
  | [], _ => []
  | c :: rest, highest =>
    (if c.is_online ∧ highest > (c.block_number + MAX_BLOCK_DIFF) % 2 ^ 64
     then [LogLine.lagging c.number (highest - c.block_number) c.block_number]
     else []) ++ sweepPass2 rest highest

/-- The third-pass grouping loop: partitions client numbers into
online-with-0-peers, online-with-1-peer and offline, in index order. -/
def partitionClients : List Client → List Nat × List Nat × List Nat
  | [] => ([], [], [])
  | c :: rest =>
    let (p0, p1, off) := partitionClients rest
    if c.is_online then
      if c.peers = 0 then (c.number :: p0, p1, off)
      else if c.peers = 1 then (p0, c.number :: p1, off)
      else (p0, p1, off)
    else
      (p0, p1, c.number :: off)

/-- Third pass of the sweep: one summary line per non-empty group. -/
def sweepPass3 (clients : List Client) : List LogLine :=
  let groups := partitionClients clients
  (if groups.1 = [] then []
   else [LogLine.peers0Summary groups.1.length groups.1]) ++
  (if groups.2.1 = [] then []
   else [LogLine.peers1Summary groups.2.1.length groups.2.1]) ++
  (if groups.2.2 = [] then []
   else [LogLine.offlineSummary groups.2.2.length groups.2.2])

/-- One full iteration of the `loop` in `main` (minus the sleep): the three
passes in order, returning the updated fleet, the updated
`highest_block_number`, and all log lines in emission order. -/
def sweep (fleet : List (Client × ClientInput)) (highest : Nat) :
    Option (Except String (List Client × Nat × List LogLine)) :=
  match sweepPass1 fleet highest with
  | none => none
  | some (.error e) => some (.error e)
  | some (.ok (cs, highest', logs1)) =>
    some (.ok (cs, highest', logs1 ++ sweepPass2 cs highest' ++ sweepPass3 cs))

/-- Maximum `block_number` over the online clients of a list (0 when no
client is online) — the quantity the spec says `highest_block_height`
should equal after a sweep. -/
def maxOnlineHeight : List Client → Nat
  | [] => 0
  | c :: rest =>
    if c.is_online then max c.block_number (maxOnlineHeight rest)
    else maxOnlineHeight rest

/-- The client states reachable from construction through any sequence of
the three check operations (with arbitrary network responses and clock
readings). -/
inductive Reachable : Client → Prop where
  | new (n : Nat) : Reachable (Client.new n)
  | rpc {c c' : Client} {resp : RpcResult} {now : Int} {logs : List LogLine} :
      Reachable c → check_rpc c resp now = some (c', logs) → Reachable c'
  | peers {c c' : Client} {resp : PeersResponse} {logs : List LogLine}
      {made : Bool} :
      Reachable c → check_peers c resp = .ok (c', logs, made) → Reachable c'
  | block {c c' : Client} {resp : TipResponse} {logs : List LogLine}
      {made : Bool} :
      Reachable c → check_block_number c resp = .ok (c', logs, made) →
      Reachable c'

/-- The record-level invariant relating `time_offline` and `is_online`:
the timestamp is present exactly while the client is offline. -/
def ClientInv (c : Client) : Prop :=
  c.time_offline.isSome = !c.is_online

/-- Helper: check_peers always succeeds, and it preserves the liveness
fields and the block height of the client (only the peers field may
change). -/
theorem check_peers_shape (c : Client) (resp : PeersResponse) :
    ∃ c' logs made, check_peers c resp = .ok (c', logs, made) ∧
      c'.is_online = c.is_online ∧ c'.time_offline = c.time_offline ∧
      c'.block_number = c.block_number ∧ c'.number = c.number := by
  by_cases h : c.is_online
  · cases resp with
    | noResponse =>
      exact ⟨c, [LogLine.peersNoResponse c.number], true,
        by simp [check_peers, h], rfl, rfl, rfl, rfl⟩
    | badJson =>
      exact ⟨c, [LogLine.peersJsonParseFailed c.number], true,
        by simp [check_peers, h], rfl, rfl, rfl, rfl⟩
    | notArray =>
      exact ⟨c, [LogLine.peersResultNotArray c.number], true,
        by simp [check_peers, h], rfl, rfl, rfl, rfl⟩
    | peersList count =>
      refine ⟨{ c with peers := count % 2 ^ 16 },
          if c.peers ≠ count % 2 ^ 16 ∧ (count = 0 ∨ count = 1)
          then [LogLine.hasPeers c.number count] else [], true,
          ?_, rfl, rfl, rfl, rfl⟩
      simp [check_peers, h]
  · have h0 : c.is_online = false := by simpa using h
    exact ⟨c, [], false, by simp [check_peers, h0], rfl, rfl, rfl, rfl⟩

/-- Helper: check_block_number always succeeds, and it preserves the
liveness fields and the peer count (only the block number may change). -/
theorem check_block_number_shape (c : Client) (resp : TipResponse) :
    ∃ c' logs made, check_block_number c resp = .ok (c', logs, made) ∧
      c'.is_online = c.is_online ∧ c'.time_offline = c.time_offline ∧
      c'.peers = c.peers ∧ c'.number = c.number := by
  by_cases h : c.is_online
  · cases resp with
    | noResponse =>
      exact ⟨c, [LogLine.tipNoResponse c.number], true,
        by simp [check_block_number, h], rfl, rfl, rfl, rfl⟩
    | badJson =>
      exact ⟨c, [LogLine.tipJsonParseFailed c.number], true,
        by simp [check_block_number, h], rfl, rfl, rfl, rfl⟩
    | noNumberField =>
      exact ⟨c, [LogLine.unexpectedJsonObject c.number], true,
        by simp [check_block_number, h], rfl, rfl, rfl, rfl⟩
    | numberNotString =>
      exact ⟨c, [LogLine.blockNumberUnexpectedFormat c.number], true,
        by simp [check_block_number, h], rfl, rfl, rfl, rfl⟩
    | numberStr s =>
      cases hp : u64_from_str_radix_16 (trimStartMatches0x s.data) with
      | none =>
        exact ⟨c, [LogLine.blockNumberParseFailed c.number], true,
          by simp [check_block_number, h, hp], rfl, rfl, rfl, rfl⟩
      | some num =>
        exact ⟨{ c with block_number := num }, [], true,
          by simp [check_block_number, h, hp], rfl, rfl, rfl, rfl⟩
  · have h0 : c.is_online = false := by simpa using h
    exact ⟨c, [], false, by simp [check_block_number, h0], rfl, rfl, rfl, rfl⟩

/-- Helper: check_rpc preserves the offline-timestamp invariant, keeps the
stored timestamp unchanged while the client remains offline, and clears it
exactly on the offline-to-online transition. -/
theorem check_rpc_transitions {c c' : Client} {resp : RpcResult} {now : Int}
    {logs : List LogLine} (hInv : ClientInv c)
    (h : check_rpc c resp now = some (c', logs)) :
    ClientInv c' ∧
    (c.is_online = false → c'.is_online = false →
      c'.time_offline = c.time_offline) ∧
    (c.is_online = false → c'.is_online = true → c'.time_offline = none) := by
  by_cases ho : c.is_online
  · cases resp with
    | ok b =>
      cases b
      · simp only [check_rpc, ho, if_true, Bool.not_true, Bool.false_eq_true,
          if_false, Option.some.injEq, Prod.mk.injEq] at h
        obtain ⟨rfl, rfl⟩ := h
        refine ⟨by simp [ClientInv], ?_, ?_⟩ <;>
          · intro hfo
            rw [ho] at hfo
            exact absurd hfo (by decide)
      · simp only [check_rpc, ho, if_true, Bool.not_true, Bool.false_eq_true,
          if_false, Option.some.injEq, Prod.mk.injEq] at h
        obtain ⟨rfl, rfl⟩ := h
        refine ⟨hInv, ?_, ?_⟩ <;>
          · intro hfo
            rw [ho] at hfo
            exact absurd hfo (by decide)
    | err =>
      simp only [check_rpc, ho, if_true, Option.some.injEq,
        Prod.mk.injEq] at h
      obtain ⟨rfl, rfl⟩ := h
      refine ⟨by simp [ClientInv], ?_, ?_⟩ <;>
        · intro hfo
          rw [ho] at hfo
          exact absurd hfo (by decide)
  · have hoff : c.is_online = false := by simpa using ho
    have hsome : c.time_offline.isSome = true := by
      rw [ClientInv, hoff] at hInv
      simpa using hInv
    obtain ⟨t, ht⟩ := Option.isSome_iff_exists.mp hsome
    cases resp with
    | ok b =>
      cases b
      · simp only [check_rpc, hoff, Bool.false_eq_true, if_false,
          Option.some.injEq, Prod.mk.injEq] at h
        obtain ⟨rfl, rfl⟩ := h
        refine ⟨hInv, fun _ _ => rfl, ?_⟩
        intro _ hon
        rw [hoff] at hon
        exact absurd hon (by decide)
      · simp only [check_rpc, hoff, Bool.not_false, if_true, ht,
          Option.some.injEq, Prod.mk.injEq] at h
        obtain ⟨rfl, rfl⟩ := h
        exact ⟨by simp [ClientInv], fun _ hco => by simp at hco,
          fun _ _ => rfl⟩
    | err =>
      simp only [check_rpc, hoff, Bool.false_eq_true, if_false,
        Option.some.injEq, Prod.mk.injEq] at h
      obtain ⟨rfl, rfl⟩ := h
      refine ⟨hInv, fun _ _ => rfl, ?_⟩
      intro _ hon
      rw [hoff] at hon
      exact absurd hon (by decide)

/-- Helper: every reachable client state satisfies the offline-timestamp
invariant. -/
theorem reachable_inv {c : Client} (h : Reachable c) : ClientInv c := by
  induction h with
  | new n => rfl
  | rpc _ hstep ih => exact (check_rpc_transitions ih hstep).1
  | peers hr hstep ih =>
    rename_i c0 c' resp logs made
    obtain ⟨c2, l2, m2, heq, hon, hto, _, _⟩ := check_peers_shape c0 resp
    rw [heq] at hstep
    obtain ⟨rfl, -, -⟩ :=
      by simpa only [Except.ok.injEq, Prod.mk.injEq] using hstep
    rw [ClientInv, hon, hto] at *
    exact ih
  | block hr hstep ih =>
    rename_i c0 c' resp logs made
    obtain ⟨c2, l2, m2, heq, hon, hto, _, _⟩ := check_block_number_shape c0 resp
    rw [heq] at hstep
    obtain ⟨rfl, -, -⟩ :=
      by simpa only [Except.ok.injEq, Prod.mk.injEq] using hstep
    rw [ClientInv, hon, hto] at *
    exact ih

/-- An offline client used to instantiate witnesses at a concrete state
satisfying the invariant. -/
def offlineClient : Client :=
  { number := 0
    port := 19000
    is_online := false
    block_number := 0
    peers := 0
    time_offline := some 2 }

/-- C2: for every record that was online, a transport failure or a
non-success response makes check_rpc transition the record to offline,
logging exactly one error-severity line, setting the offline timestamp to
the current time, and resetting the peer count and block height to zero. -/
theorem C2_online_failure_goes_offline (c : Client) (resp : RpcResult)
    (now : Int) (h : c.is_online = true)
    (hfail : resp = RpcResult.ok false ∨ resp = RpcResult.err) :
    check_rpc c resp now =
      some ({ c with is_online := false, time_offline := some now,
                     peers := 0, block_number := 0 },
            [if resp = RpcResult.err then LogLine.didNotRespond c.number
             else LogLine.errorResponse c.number]) ∧
    severity (if resp = RpcResult.err then LogLine.didNotRespond c.number
              else LogLine.errorResponse c.number) = Severity.error := by
  rcases hfail with rfl | rfl
  · exact ⟨by simp [check_rpc, h], rfl⟩
  · exact ⟨by simp [check_rpc, h], rfl⟩

/-- Witness for C2 at a concrete online client and a transport failure. -/
theorem C2_online_failure_goes_offline_witness :
    check_rpc (Client.new 0) RpcResult.err 5 =
      some ({ number := 0, port := 19000, is_online := false,
              block_number := 0, peers := 0, time_offline := some 5 },
            [LogLine.didNotRespond 0]) ∧
    severity (LogLine.didNotRespond 0) = Severity.error :=
  C2_online_failure_goes_offline (Client.new 0) RpcResult.err 5 rfl
    (Or.inr rfl)

/-- C7: for every record that was offline, a successful response makes
check_rpc transition the record to online, logging exactly one recovery
line whose duration is the elapsed seconds since the stored offline
timestamp; under a monotone clock that duration is nonnegative, and the
offline timestamp is cleared. -/
theorem C7_recovery_logs_duration (c : Client) (t now : Int)
    (h1 : c.is_online = false) (h2 : c.time_offline = some t)
    (h3 : t ≤ now) :
    check_rpc c (RpcResult.ok true) now =
      some ({ c with is_online := true, time_offline := none },
            [LogLine.nowOnline c.number (now - t)]) ∧
    0 ≤ now - t := by
  refine ⟨by simp [check_rpc, h1, h2], ?_⟩
  omega

/-- Witness for C7 at a concrete offline client. -/
theorem C7_recovery_logs_duration_witness :
    check_rpc offlineClient (RpcResult.ok true) 7 =
      some ({ offlineClient with is_online := true, time_offline := none },
            [LogLine.nowOnline offlineClient.number (7 - 2)]) ∧
    (0 : Int) ≤ 7 - 2 :=
  C7_recovery_logs_duration offlineClient 2 7 rfl rfl (by norm_num)

/-- C9: for every record with online set to false, check_peers and
check_block_number return immediately: no request is issued (third
component false), no log is emitted, and the client is unchanged, so the
peer count and block height are only ever updated while online. -/
theorem C9_offline_checks_skipped (c : Client) (h : c.is_online = false) :
    (∀ resp : PeersResponse, check_peers c resp = .ok (c, [], false)) ∧
    (∀ resp : TipResponse, check_block_number c resp = .ok (c, [], false)) :=
  ⟨fun resp => by simp [check_peers, h],
   fun resp => by simp [check_block_number, h]⟩

/-- Witness for C9 at a concrete offline client and concrete responses. -/
theorem C9_offline_checks_skipped_witness :
    check_peers offlineClient PeersResponse.noResponse =
      .ok (offlineClient, [], false) ∧
    check_block_number offlineClient TipResponse.badJson =
      .ok (offlineClient, [], false) :=
  ⟨(C9_offline_checks_skipped offlineClient rfl).1 PeersResponse.noResponse,
   (C9_offline_checks_skipped offlineClient rfl).2 TipResponse.badJson⟩

/-- C3: the offline-timestamp invariant.  Records are constructed online
with no timestamp; every reachable state stores a timestamp exactly while
offline; check_rpc preserves the invariant, never refreshes the timestamp
while the record stays offline, and clears it exactly on the
offline-to-online transition; check_peers and check_block_number do not
touch the liveness fields at all. -/
theorem C3_offline_since_invariant :
    (∀ n : Nat, (Client.new n).is_online = true ∧
      (Client.new n).time_offline = none) ∧
    (∀ c : Client, Reachable c → ClientInv c) ∧
    (∀ (c : Client) (resp : RpcResult) (now : Int) (c' : Client)
        (logs : List LogLine), ClientInv c →
        check_rpc c resp now = some (c', logs) →
        ClientInv c' ∧
        (c.is_online = false → c'.is_online = false →
          c'.time_offline = c.time_offline) ∧
        (c.is_online = false → c'.is_online = true →
          c'.time_offline = none)) ∧
    (∀ (c : Client) (resp : PeersResponse) (out : Client × List LogLine × Bool),
        check_peers c resp = .ok out →
        out.1.is_online = c.is_online ∧ out.1.time_offline = c.time_offline) ∧
    (∀ (c : Client) (resp : TipResponse) (out : Client × List LogLine × Bool),
        check_block_number c resp = .ok out →
        out.1.is_online = c.is_online ∧
          out.1.time_offline = c.time_offline) := by
  refine ⟨fun n => ⟨rfl, rfl⟩, fun c hr => reachable_inv hr,
    fun c resp now c' logs hInv h => check_rpc_transitions hInv h,
    fun c resp out h => ?_, fun c resp out h => ?_⟩
  · obtain ⟨c2, l2, m2, heq, hon, hto, _, _⟩ := check_peers_shape c resp
    rw [heq] at h
    obtain ⟨rfl, -⟩ :=
      by simpa only [Except.ok.injEq, Prod.mk.injEq] using h
    exact ⟨hon, hto⟩
  · obtain ⟨c2, l2, m2, heq, hon, hto, _, _⟩ := check_block_number_shape c resp
    rw [heq] at h
    obtain ⟨rfl, -⟩ :=
      by simpa only [Except.ok.injEq, Prod.mk.injEq] using h
    exact ⟨hon, hto⟩

/-- Witness for C3: the invariant holds at a concrete reachable state. -/
theorem C3_offline_since_invariant_witness : ClientInv (Client.new 0) :=
  C3_offline_since_invariant.2.1 (Client.new 0) (Reachable.new 0)

/-- C10: on every reachable client state, check_rpc never reaches the
panicking unwrap of the offline timestamp: the recovery branch is entered
only with a stored timestamp, so the call always produces a result. -/
theorem C10_unwrap_never_panics (c : Client) (hc : Reachable c)
    (resp : RpcResult) (now : Int) :
    (check_rpc c resp now).isSome = true := by
  have hInv : ClientInv c := reachable_inv hc
  cases resp with
  | ok b =>
    cases b
    · by_cases ho : c.is_online <;> simp [check_rpc, ho]
    · by_cases ho : c.is_online
      · simp [check_rpc, ho]
      · have hoff : c.is_online = false := by simpa using ho
        have hsome : c.time_offline.isSome = true := by
          rw [ClientInv, hoff] at hInv
          simpa using hInv
        obtain ⟨t, ht⟩ := Option.isSome_iff_exists.mp hsome
        simp [check_rpc, hoff, ht]
  | err => by_cases ho : c.is_online <;> simp [check_rpc, ho]

/-- Witness for C10 at a concrete reachable client. -/
theorem C10_unwrap_never_panics_witness :
    (check_rpc (Client.new 3) RpcResult.err 0).isSome = true :=
  C10_unwrap_never_panics (Client.new 3) (Reachable.new 3) RpcResult.err 0

/-- C5 counterexample: a well-formed get_peers response listing 65536 peers
does not leave the stored peer count equal to the new value: the u16 cast
truncates 65536 to 0, so the stored count stays 0 (and in particular
differs from the new count). -/
theorem C5_peer_count_cast_counterexample :
    check_peers (Client.new 0) (PeersResponse.peersList 65536) =
      .ok (Client.new 0, [], true) ∧
    (Client.new 0).peers ≠ 65536 := by
  constructor
  · simp [check_peers, Client.new]
  · decide

/-- C5 as amended: on a well-formed get_peers response the debug log fires
exactly when the new count differs from the stored value and lies in the
0-or-1 band (so counts of two or more never log), and the stored count is
updated to the new count reduced modulo 2 to the 16 (the u16 cast), which
is the new count itself whenever it is below 65536. -/
theorem C5_peer_logging_policy (c : Client) (count : Nat)
    (h : c.is_online = true) :
    check_peers c (PeersResponse.peersList count) =
      .ok ({ c with peers := count % 2 ^ 16 },
           if c.peers ≠ count ∧ (count = 0 ∨ count = 1)
           then [LogLine.hasPeers c.number count] else [],
           true) ∧
    (count < 2 ^ 16 → count % 2 ^ 16 = count) ∧
    (2 ≤ count →
      (if c.peers ≠ count ∧ (count = 0 ∨ count = 1)
       then [LogLine.hasPeers c.number count] else []) = []) := by
  refine ⟨?_, fun hlt => Nat.mod_eq_of_lt hlt, fun h2 => ?_⟩
  · have hlog : (if c.peers ≠ count % 2 ^ 16 ∧ (count = 0 ∨ count = 1)
          then [LogLine.hasPeers c.number count] else []) =
        (if c.peers ≠ count ∧ (count = 0 ∨ count = 1)
          then [LogLine.hasPeers c.number count] else []) := by
      by_cases hb : count = 0 ∨ count = 1
      · have hmod : count % 2 ^ 16 = count := by
          rcases hb with rfl | rfl <;> rfl
        rw [hmod]
      · rw [if_neg (fun hx => hb hx.2), if_neg (fun hx => hb hx.2)]
    rw [← hlog]
    simp [check_peers, h]
  · rw [if_neg]
    rintro ⟨-, rfl | rfl⟩ <;> omega

/-- Witness for C5 as amended, at a concrete online client and count 1. -/
theorem C5_peer_logging_policy_witness :
    check_peers (Client.new 0) (PeersResponse.peersList 1) =
      .ok ({ number := 0, port := 19000, is_online := true,
             block_number := 0, peers := 1, time_offline := none },
           [LogLine.hasPeers 0 1], true) :=
  (C5_peer_logging_policy (Client.new 0) 1 rfl).1

/-- C6: hex parsing in check_block_number.  The string 0x2a yields block
height 42; the unprefixed string 2a is also accepted (prefix stripping
tolerates an absent prefix) and yields 42; the invalid string 0xZZ is a
parse error that logs one error line and leaves the block height (and the
whole record) unchanged. -/
theorem C6_hex_parsing (c : Client) (h : c.is_online = true) :
    check_block_number c (TipResponse.numberStr "0x2a") =
      .ok ({ c with block_number := 42 }, [], true) ∧
    check_block_number c (TipResponse.numberStr "2a") =
      .ok ({ c with block_number := 42 }, [], true) ∧
    check_block_number c (TipResponse.numberStr "0xZZ") =
      .ok (c, [LogLine.blockNumberParseFailed c.number], true) := by
  refine ⟨?_, ?_, ?_⟩ <;> simp [check_block_number, h] <;> rfl

/-- Witness for C6 at a concrete online client. -/
theorem C6_hex_parsing_witness :
    check_block_number (Client.new 0) (TipResponse.numberStr "0x2a") =
      .ok ({ number := 0, port := 19000, is_online := true,
             block_number := 42, peers := 0, time_offline := none },
           [], true) :=
  (C6_hex_parsing (Client.new 0) rfl).1

/-- Failure shapes of a get_peers response, with the error line each one
produces (none exactly for a well-formed response). -/
def peersFailureLog (n : Nat) : PeersResponse → Option LogLine
  | .noResponse => some (.peersNoResponse n)
  | .badJson => some (.peersJsonParseFailed n)
  | .notArray => some (.peersResultNotArray n)
  | .peersList _ => none

/-- Failure shapes of a get_tip_header response, with the error line each
one produces (none exactly for a response whose number string parses). -/
def tipFailureLog (n : Nat) : TipResponse → Option LogLine
  | .noResponse => some (.tipNoResponse n)
  | .badJson => some (.tipJsonParseFailed n)
  | .noNumberField => some (.unexpectedJsonObject n)
  | .numberNotString => some (.blockNumberUnexpectedFormat n)
  | .numberStr s =>
    match u64_from_str_radix_16 (trimStartMatches0x s.data) with
    | some _ => none
    | none => some (.blockNumberParseFailed n)

/-- C8: every remote-call or parse failure in check_peers and
check_block_number is contained: exactly one error-severity line is
logged, the client record is completely unchanged (stale values retained,
no liveness transition), and the function still returns success. -/
theorem C8_failures_contained (c : Client) (h : c.is_online = true) :
    (∀ (resp : PeersResponse) (l : LogLine),
      peersFailureLog c.number resp = some l →
      check_peers c resp = .ok (c, [l], true) ∧ severity l = Severity.error) ∧
    (∀ (resp : TipResponse) (l : LogLine),
      tipFailureLog c.number resp = some l →
      check_block_number c resp = .ok (c, [l], true) ∧
        severity l = Severity.error) := by
  constructor
  · intro resp l hfail
    cases resp with
    | noResponse =>
      obtain rfl : LogLine.peersNoResponse c.number = l := by
        simpa [peersFailureLog] using hfail
      exact ⟨by simp [check_peers, h], rfl⟩
    | badJson =>
      obtain rfl : LogLine.peersJsonParseFailed c.number = l := by
        simpa [peersFailureLog] using hfail
      exact ⟨by simp [check_peers, h], rfl⟩
    | notArray =>
      obtain rfl : LogLine.peersResultNotArray c.number = l := by
        simpa [peersFailureLog] using hfail
      exact ⟨by simp [check_peers, h], rfl⟩
    | peersList count => simp [peersFailureLog] at hfail
  · intro resp l hfail
    cases resp with
    | noResponse =>
      obtain rfl : LogLine.tipNoResponse c.number = l := by
        simpa [tipFailureLog] using hfail
      exact ⟨by simp [check_block_number, h], rfl⟩
    | badJson =>
      obtain rfl : LogLine.tipJsonParseFailed c.number = l := by
        simpa [tipFailureLog] using hfail
      exact ⟨by simp [check_block_number, h], rfl⟩
    | noNumberField =>
      obtain rfl : LogLine.unexpectedJsonObject c.number = l := by
        simpa [tipFailureLog] using hfail
      exact ⟨by simp [check_block_number, h], rfl⟩
    | numberNotString =>
      obtain rfl : LogLine.blockNumberUnexpectedFormat c.number = l := by
        simpa [tipFailureLog] using hfail
      exact ⟨by simp [check_block_number, h], rfl⟩
    | numberStr s =>
      cases hp : u64_from_str_radix_16 (trimStartMatches0x s.data) with
      | some num => simp [tipFailureLog, hp] at hfail
      | none =>
        obtain rfl : LogLine.blockNumberParseFailed c.number = l := by
          simpa [tipFailureLog, hp] using hfail
        exact ⟨by simp [check_block_number, h, hp], rfl⟩

/-- Witness for C8 at a concrete online client and concrete failures. -/
theorem C8_failures_contained_witness :
    (check_peers (Client.new 0) PeersResponse.noResponse =
      .ok (Client.new 0, [LogLine.peersNoResponse 0], true) ∧
     severity (LogLine.peersNoResponse 0) = Severity.error) ∧
    (check_block_number (Client.new 0) (TipResponse.numberStr "0xZZ") =
      .ok (Client.new 0, [LogLine.blockNumberParseFailed 0], true) ∧
     severity (LogLine.blockNumberParseFailed 0) = Severity.error) :=
  ⟨(C8_failures_contained (Client.new 0) rfl).1 PeersResponse.noResponse
     (LogLine.peersNoResponse 0) rfl,
   (C8_failures_contained (Client.new 0) rfl).2
     (TipResponse.numberStr "0xZZ") (LogLine.blockNumberParseFailed 0) rfl⟩

/-- Helper: the highest-block value threaded out of one client iteration
is the maximum of the incoming value and the height of the client when the
client ends the iteration online, and the incoming value unchanged
otherwise. -/
theorem clientStep_highest (c : Client) (inp : ClientInput) (highest : Nat)
    (c' : Client) (h' : Nat) (logs : List LogLine)
    (h : clientStep c inp highest = some (.ok (c', h', logs))) :
    h' = if c'.is_online then max highest c'.block_number else highest := by
  cases hrpc : check_rpc c inp.rpc inp.now with
  | none =>
    unfold clientStep at h
    rw [hrpc] at h
    simp at h
  | some res =>
    obtain ⟨c1, logs1⟩ := res
    by_cases ho : c1.is_online
    · obtain ⟨c2, l2, m2, hp, hpo, -, -, -⟩ :=
        check_peers_shape c1 inp.peersResp
      obtain ⟨c3, l3, m3, hb, hbo, -, -, -⟩ :=
        check_block_number_shape c2 inp.tipResp
      have hrun : clientStep c inp highest =
          some (.ok (c3,
            if c3.block_number > highest then c3.block_number else highest,
            LogLine.checking c.number :: (logs1 ++ l2 ++ l3))) := by
        simp only [clientStep, hrpc, ho, hp, hb, if_true]
      rw [hrun] at h
      simp only [Option.some.injEq, Except.ok.injEq, Prod.mk.injEq] at h
      obtain ⟨rfl, rfl, -⟩ := h
      have hon : c3.is_online = true := by rw [hbo, hpo]; exact ho
      rw [if_pos hon, Nat.max_def]
      split <;> split <;> omega
    · have hoff : c1.is_online = false := by simpa using ho
      have hrun : clientStep c inp highest =
          some (.ok (c1, highest, LogLine.checking c.number :: logs1)) := by
        simp only [clientStep, hrpc, hoff]
        simp
      rw [hrun] at h
      simp only [Option.some.injEq, Except.ok.injEq, Prod.mk.injEq] at h
      obtain ⟨rfl, rfl, -⟩ := h
      rw [if_neg]
      rw [hoff]
      exact Bool.false_ne_true

/-- Helper: the highest-block value after the first pass of a sweep is the
maximum of the value entering the pass and the greatest height among the
clients that come out of the pass online. -/
theorem sweepPass1_highest (fleet : List (Client × ClientInput)) :
    ∀ (highest : Nat) (cs : List Client) (hFinal : Nat)
      (logs : List LogLine),
      sweepPass1 fleet highest = some (.ok (cs, hFinal, logs)) →
      hFinal = max highest (maxOnlineHeight cs) := by
  induction fleet with
  | nil =>
    intro highest cs hFinal logs h
    simp only [sweepPass1, Option.some.injEq, Except.ok.injEq,
      Prod.mk.injEq] at h
    obtain ⟨rfl, rfl, -⟩ := h
    simp [maxOnlineHeight]
  | cons p rest ih =>
    obtain ⟨c, inp⟩ := p
    intro highest cs hFinal logs h
    unfold sweepPass1 at h
    split at h
    · exact Option.noConfusion h
    · simp at h
    rename_i c' highest' logs1 hstep
    split at h
    · exact Option.noConfusion h
    · simp at h
    rename_i cs2 hF2 logs2 hrest
    simp only [Option.some.injEq, Except.ok.injEq, Prod.mk.injEq] at h
    obtain ⟨rfl, rfl, -⟩ := h
    have hstep' := clientStep_highest c inp highest c' highest' logs1 hstep
    have hrec := ih highest' cs2 hF2 logs2 hrest
    by_cases hon : c'.is_online
    · rw [if_pos hon] at hstep'
      subst hstep'
      rw [hrec]
      simp only [maxOnlineHeight, hon, if_true]
      exact max_assoc highest c'.block_number (maxOnlineHeight cs2)
    · have hoff : c'.is_online = false := by simpa using hon
      rw [if_neg (by rw [hoff]; exact Bool.false_ne_true)] at hstep'
      subst hstep'
      rw [hrec]
      simp [maxOnlineHeight, hoff]

/-- C1 as amended: after every sweep the fleet-wide highest block value is
the maximum of its value entering the sweep and the greatest block height
among currently-online records; in particular it never decreases.  It is
not recomputed from scratch: the running maximum is initialised once
before the loop and carried across sweeps. -/
theorem C1_highest_is_running_max (fleet : List (Client × ClientInput))
    (highest : Nat) (cs : List Client) (hFinal : Nat) (logs : List LogLine)
    (h : sweep fleet highest = some (.ok (cs, hFinal, logs))) :
    hFinal = max highest (maxOnlineHeight cs) ∧ highest ≤ hFinal := by
  unfold sweep at h
  split at h
  · exact Option.noConfusion h
  · simp at h
  rename_i cs1 h1 logs1 heq
  simp only [Option.some.injEq, Except.ok.injEq, Prod.mk.injEq] at h
  obtain ⟨rfl, rfl, -⟩ := h
  have hmax := sweepPass1_highest fleet highest cs1 h1 logs1 heq
  exact ⟨hmax, hmax ▸ Nat.le_max_left _ _⟩

/-- Input making a client answer all three checks successfully with tip
block 100. -/
def inputUp100 : ClientInput :=
  { rpc := RpcResult.ok true
    now := 0
    peersResp := PeersResponse.peersList 2
    tipResp := TipResponse.numberStr "0x64" }

/-- Input on which the liveness check fails with a transport error. -/
def inputDown : ClientInput :=
  { rpc := RpcResult.err
    now := 60
    peersResp := PeersResponse.peersList 2
    tipResp := TipResponse.numberStr "0x64" }

/-- State of client 0 after one fully successful sweep at height 100. -/
def clientUp100 : Client :=
  { number := 0
    port := 19000
    is_online := true
    block_number := 100
    peers := 2
    time_offline := none }

/-- State of client 0 after it subsequently goes offline at time 60. -/
def clientDown : Client :=
  { number := 0
    port := 19000
    is_online := false
    block_number := 0
    peers := 0
    time_offline := some 60 }

/-- Witness for C1 as amended, at a concrete one-client sweep. -/
theorem C1_highest_is_running_max_witness :
    (100 : Nat) = max 0 (maxOnlineHeight [clientUp100]) ∧ (0 : Nat) ≤ 100 :=
  C1_highest_is_running_max [(Client.new 0, inputUp100)] 0 [clientUp100]
    100 [LogLine.checking 0] rfl

/-- C1 counterexample: two consecutive sweeps over a one-client fleet.
The first sweep sees the client online at height 100, so the running
maximum becomes 100; in the second sweep the client fails its liveness
check and goes offline (its height resets to 0), yet the value after that
sweep is still 100 while the maximum height among currently-online records
is 0: the fleet-wide value is not recomputed from scratch each sweep. -/
theorem C1_highest_not_recomputed_counterexample :
    sweep [(Client.new 0, inputUp100)] 0 =
      some (.ok ([clientUp100], 100, [LogLine.checking 0])) ∧
    sweep [(clientUp100, inputDown)] 100 =
      some (.ok ([clientDown], 100,
                 [LogLine.checking 0, LogLine.didNotRespond 0,
                  LogLine.offlineSummary 1 [0]])) ∧
    maxOnlineHeight [clientDown] = 0 ∧ (100 : Nat) ≠ 0 := by
  exact ⟨rfl, rfl, rfl, by decide⟩

/-- C4 as amended: the second pass emits exactly one warn line per online
client for which the value of highest exceeds the wrapped sum of the
height of the client and MAX_BLOCK_DIFF (u64 addition wraps modulo 2 to the
64), and that line carries the exact numeric gap and the height of
the client itself; whenever the sum does not overflow — every realistic height — the
flagging condition coincides with the claimed one, a gap greater than
MAX_BLOCK_DIFF. -/
theorem C4_lag_flagging (clients : List Client) (highest : Nat) :
    sweepPass2 clients highest =
      (clients.filter (fun c => c.is_online &&
          decide ((c.block_number + MAX_BLOCK_DIFF) % 2 ^ 64 < highest))).map
        (fun c =>
          LogLine.lagging c.number (highest - c.block_number)
            c.block_number) ∧
    (∀ c : Client, c.block_number + MAX_BLOCK_DIFF < 2 ^ 64 →
      ((c.is_online = true ∧
          (c.block_number + MAX_BLOCK_DIFF) % 2 ^ 64 < highest) ↔
        (c.is_online = true ∧
          MAX_BLOCK_DIFF < highest - c.block_number))) := by
  constructor
  · induction clients with
    | nil => rfl
    | cons cl rest ih =>
      rw [sweepPass2, ih, List.filter_cons]
      by_cases h1 : cl.is_online
      · by_cases h2 : (cl.block_number + MAX_BLOCK_DIFF) % 2 ^ 64 < highest
        · rw [if_pos ⟨h1, h2⟩,
            if_pos (by simp only [Bool.and_eq_true, decide_eq_true_eq]
                       exact ⟨h1, h2⟩),
            List.map_cons]
          rfl
        · rw [if_neg (fun hx => h2 hx.2),
            if_neg (fun hx =>
              h2 (of_decide_eq_true ((Bool.and_eq_true _ _).mp hx).2)),
            List.nil_append]
      · rw [if_neg (fun hx => h1 hx.1),
          if_neg (fun hx => h1 ((Bool.and_eq_true _ _).mp hx).1),
          List.nil_append]
  · intro c hc
    rw [Nat.mod_eq_of_lt hc]
    constructor
    · rintro ⟨h1, h2⟩
      exact ⟨h1, by omega⟩
    · rintro ⟨h1, h2⟩
      exact ⟨h1, by omega⟩

/-- Witness for C4 as amended: the equivalence instantiated at a concrete
non-overflowing client and a concrete highest value. -/
theorem C4_lag_flagging_witness :
    ((clientUp100.is_online = true ∧
        (clientUp100.block_number + MAX_BLOCK_DIFF) % 2 ^ 64 < 200) ↔
      (clientUp100.is_online = true ∧
        MAX_BLOCK_DIFF < 200 - clientUp100.block_number)) :=
  (C4_lag_flagging [clientUp100] 200).2 clientUp100 (by decide)

/-- Input making a client online with the maximal u64 tip height. -/
def inputUpMax : ClientInput :=
  { rpc := RpcResult.ok true
    now := 0
    peersResp := PeersResponse.peersList 2
    tipResp := TipResponse.numberStr "0xffffffffffffffff" }

/-- State of client 0 online at the maximal u64 height. -/
def clientUpMax : Client :=
  { number := 0
    port := 19000
    is_online := true
    block_number := 2 ^ 64 - 1
    peers := 2
    time_offline := none }

/-- C4 counterexample: a sweep whose only client is online at the maximal
u64 height.  That client has gap 0 from highest, which is not greater than
MAX_BLOCK_DIFF, yet the second pass flags it as lagging: the u64 sum of
its height and MAX_BLOCK_DIFF wraps to 29, which highest exceeds.  So a
record can be flagged although its gap is not above the threshold. -/
theorem C4_lag_overflow_counterexample :
    sweep [(Client.new 0, inputUpMax)] 0 =
      some (.ok ([clientUpMax], 2 ^ 64 - 1,
                 [LogLine.checking 0,
                  LogLine.lagging 0 0 (2 ^ 64 - 1)])) ∧
    ¬ (MAX_BLOCK_DIFF < (2 ^ 64 - 1) - clientUpMax.block_number) :=
  ⟨rfl, by decide⟩
